import Mathlib

/-!
Shallow embedding of `src/001_Back/service.py` (price optimization and
OLS demand fitting) over exact rational arithmetic.

The Python code works on floats and uses sympy for the one-time symbolic
construction of the profit function, its derivatives and the closed-form
unconstrained optimum; here the numerics are modelled over `ℚ` and the
symbolic pipeline is modelled by explicit quadratic-coefficient
manipulation (expand the profit into a quadratic in the price `p`, take
the formal derivative, solve the resulting linear equation generically).
The `Derivation` strings (plain text and LaTeX renderings of the
formulas) are presentation-only and carry no numeric content, so they
are not part of the embedding; every numeric field of the responses is.
All `BadRequest` errors raised by the service are modelled by the
inductive `ServiceError`, one constructor per distinct message.
-/

/-- Error kinds of the service layer. Each constructor corresponds to one
distinct `BadRequest` message raised in `service.py`. -/
inductive ServiceError where
  | invalidDemandSlope
  | invalidPriceBounds
  | unsolvableModel
  | insufficientData
  | degeneratePriceVariance
  | nonDecreasingFit
deriving DecidableEq, Repr

/-- `OptimizeRequest` from `classes.py`: parameters of the demand model
`q(p) = alpha - beta*p`, costs `c` (variable) and `F` (fixed), and the
feasible price interval `[pMin, pMax]`. -/
structure OptimizeRequest where
  alpha : ℚ
  beta : ℚ
  c : ℚ
  F : ℚ
  pMin : ℚ
  pMax : ℚ
deriving DecidableEq, Repr

/-- `OptimizeResponse` from `classes.py`, numeric fields only (the
`derivation` field holds pre-rendered formula strings independent of the
numeric instance and is omitted from the embedding). -/
structure OptimizeResponse where
  pOpt : ℚ
  qOpt : ℚ
  profitOpt : ℚ
  revenue : ℚ
  margin : ℚ
  elasticity : ℚ
  usedBoundary : Bool
deriving DecidableEq, Repr

/-- A data point `(price, quantity)` — `FitPoint` from `classes.py`. -/
structure FitPoint where
  price : ℚ
  quantity : ℚ
deriving DecidableEq, Repr

/-- `FitResponse` from `classes.py`: fitted demand parameters, raw OLS
coefficients and the coefficient of determination. -/
structure FitResponse where
  alpha : ℚ
  beta : ℚ
  slope : ℚ
  intercept : ℚ
  r2 : ℚ
deriving DecidableEq, Repr

deriving instance DecidableEq for Except

/-- Python's builtin `max` on two numbers. -/
def pymax (a b : ℚ) : ℚ := if a < b then b else a

/-- Python's builtin `min` on two numbers. -/
def pymin (a b : ℚ) : ℚ := if b < a then b else a

/-- Python's builtin `abs` on a number. -/
def pyabs (a : ℚ) : ℚ := if a < 0 then -a else a

/-- `pymax` is the lattice `max` of `ℚ`. -/
theorem pymax_eq_max (a b : ℚ) : pymax a b = max a b := by
  unfold pymax
  rcases lt_or_ge a b with h | h
  · rw [if_pos h, max_eq_right h.le]
  · rw [if_neg (not_lt.mpr h), max_eq_left h]

/-- `pymin` is the lattice `min` of `ℚ`. -/
theorem pymin_eq_min (a b : ℚ) : pymin a b = min a b := by
  unfold pymin
  rcases lt_or_ge b a with h | h
  · rw [if_pos h, min_eq_right h.le]
  · rw [if_neg (not_lt.mpr h), min_eq_left h]

/-- `pyabs` is the absolute value of `ℚ`. -/
theorem pyabs_eq_abs (a : ℚ) : pyabs a = |a| := by
  unfold pyabs
  rcases lt_or_ge a 0 with h | h
  · rw [if_pos h, abs_of_neg h]
  · rw [if_neg (not_lt.mpr h), abs_of_nonneg h]

/-- The tolerance `1e-12` used by the boundary test of
`optimize_with_sympy` and by the degenerate-variance guard of
`fit_linear`. -/
def tol : ℚ := 1 / 10 ^ 12

/-- A polynomial of degree at most 2 in the price `p`, represented by its
coefficients: `a0 + a1*p + a2*p^2`. The sympy expressions built by
`_build_symbolic_model` (`q`, `pi`, `dpi`, `d2`) are all of this shape in
`p`, with coefficients that are rational expressions of the parameters. -/
structure PriceQuad where
  a0 : ℚ
  a1 : ℚ
  a2 : ℚ
deriving DecidableEq, Repr

/-- Evaluation of the quadratic at a concrete price. -/
def PriceQuad.eval (f : PriceQuad) (p : ℚ) : ℚ :=
  f.a0 + f.a1 * p + f.a2 * p ^ 2

/-- Formal derivative with respect to `p`, modelling sympy `diff(·, p)`. -/
def PriceQuad.derivP (f : PriceQuad) : PriceQuad :=
  ⟨f.a1, 2 * f.a2, 0⟩

/-- The demand `q(p) = alpha - beta*p` of `_build_symbolic_model`, as a
(linear) quadratic in `p`. -/
def qQuad (alpha beta : ℚ) : PriceQuad :=
  ⟨alpha, -beta, 0⟩

/-- The profit `pi(p) = p*q(p) - (F + c*q(p))` of `_build_symbolic_model`,
expanded into coefficients in `p` (sympy `simplify` produces this
canonical expansion). The lemma `piQuad_eval` checks the expansion
against the source formula. -/
def piQuad (alpha beta c F : ℚ) : PriceQuad :=
  ⟨-(F + c * alpha), alpha + c * beta, -beta⟩

/-- `dpi`, the first derivative of the profit with respect to `p`. -/
def dpiQuad (alpha beta c F : ℚ) : PriceQuad :=
  (piQuad alpha beta c F).derivP

/-- The unconstrained optimum `p*`: sympy solves `dpi(p) = 0`, a linear
equation `a0 + a1*p = 0` whose leading coefficient `a1 = -2*beta` is not
identically zero, so the generic root `-a0/a1` is returned; per request
the numeric parameters are substituted into that expression.  This is the
value `p_star_num` of `optimize_with_sympy`. -/
def pStarNum (alpha beta c F : ℚ) : ℚ :=
  -(dpiQuad alpha beta c F).a0 / (dpiQuad alpha beta c F).a1

/-- `optimize_with_sympy` from `service.py`, over exact rationals:
validate `beta > 0` and `pMin <= pMax`, evaluate the closed-form `p*`,
clamp it to `[pMin, pMax]`, and derive quantity, revenue, profit, margin,
elasticity and the boundary flag. -/
def optimize_with_sympy (req : OptimizeRequest) : Except ServiceError OptimizeResponse :=
  if req.beta ≤ 0 then .error .invalidDemandSlope
  else if req.pMax < req.pMin then .error .invalidPriceBounds
  else
    let p_star_num := pStarNum req.alpha req.beta req.c req.F
    let p_opt := pymin (pymax p_star_num req.pMin) req.pMax
    let used_boundary := decide (tol < pyabs (p_opt - p_star_num))
    let q_opt := pymax 0 ((qQuad req.alpha req.beta).eval p_opt)
    let revenue := p_opt * q_opt
    let profit_opt := revenue - (req.F + req.c * q_opt)
    let margin := if 0 < revenue then (revenue - req.c * q_opt) / revenue else 0
    let elasticity :=
      if 0 < q_opt then (-req.beta * p_opt) / (req.alpha - req.beta * p_opt) else 0
    .ok ⟨p_opt, q_opt, profit_opt, revenue, margin, elasticity, used_boundary⟩

/-- `sumP` of `fit_linear`: sum of the prices. -/
def sumP (l : List FitPoint) : ℚ := (l.map (fun pt => pt.price)).sum

/-- `sumQ` of `fit_linear`: sum of the quantities. -/
def sumQ (l : List FitPoint) : ℚ := (l.map (fun pt => pt.quantity)).sum

/-- `sumPP` of `fit_linear`: sum of the squared prices. -/
def sumPP (l : List FitPoint) : ℚ := (l.map (fun pt => pt.price * pt.price)).sum

/-- `sumPQ` of `fit_linear`: sum of the price-quantity products. -/
def sumPQ (l : List FitPoint) : ℚ := (l.map (fun pt => pt.price * pt.quantity)).sum

/-- `meanP` of `fit_linear`. -/
def meanP (l : List FitPoint) : ℚ := sumP l / l.length

/-- `meanQ` of `fit_linear`. -/
def meanQ (l : List FitPoint) : ℚ := sumQ l / l.length

/-- `sxx` of `fit_linear`: `sumPP - n*meanP*meanP`. -/
def sxx (l : List FitPoint) : ℚ := sumPP l - l.length * meanP l * meanP l

/-- `sxy` of `fit_linear`: `sumPQ - n*meanP*meanQ`. -/
def sxy (l : List FitPoint) : ℚ := sumPQ l - l.length * meanP l * meanQ l

/-- The OLS slope `sxy/sxx` — local variable `slope` of `fit_linear`
(renamed: Mathlib already declares `slope`). -/
def slope_fit (l : List FitPoint) : ℚ := sxy l / sxx l

/-- `intercept` of `fit_linear`: `meanQ - slope*meanP`. -/
def intercept (l : List FitPoint) : ℚ := meanQ l - slope_fit l * meanP l

/-- `ss_tot` of `fit_linear`: total sum of squares. -/
def ss_tot (l : List FitPoint) : ℚ :=
  (l.map (fun pt => (pt.quantity - meanQ l) ^ 2)).sum

/-- `ss_res` of `fit_linear`: residual sum of squares of the fitted line. -/
def ss_res (l : List FitPoint) : ℚ :=
  (l.map (fun pt => (pt.quantity - (intercept l + slope_fit l * pt.price)) ^ 2)).sum

/-- `r2` of `fit_linear`: `1 - ss_res/ss_tot` when `ss_tot > 0`, else 0. -/
def r2 (l : List FitPoint) : ℚ :=
  if 0 < ss_tot l then 1 - ss_res l / ss_tot l else 0

/-- `fit_linear` from `service.py`: ordinary least squares over exact
rationals, with the three validity guards (enough data, non-degenerate
price variance, fitted demand decreasing in price). -/
def fit_linear (pontos : List FitPoint) : Except ServiceError FitResponse :=
  if pontos.length < 2 then .error .insufficientData
  else if pyabs (sxx pontos) < tol then .error .degeneratePriceVariance
  else if -slope_fit pontos ≤ 0 then .error .nonDecreasingFit
  else .ok ⟨intercept pontos, -slope_fit pontos, slope_fit pontos, intercept pontos, r2 pontos⟩

/-- Sanity of the expansion `piQuad`: evaluated at any price it agrees
with the source formula `p*q(p) - (F + c*q(p))`. -/
theorem piQuad_eval (alpha beta c F p : ℚ) :
    (piQuad alpha beta c F).eval p =
      p * (qQuad alpha beta).eval p - (F + c * (qQuad alpha beta).eval p) := by
  simp only [piQuad, qQuad, PriceQuad.eval]
  ring

/-- The demand expression evaluates to `alpha - beta*p`. -/
theorem qQuad_eval (alpha beta p : ℚ) :
    (qQuad alpha beta).eval p = alpha - beta * p := by
  simp only [qQuad, PriceQuad.eval]
  ring

/-- Inversion of a successful `optimize_with_sympy` call: success implies
the two validity guards held, and each response field equals the
expression the source computes for it. -/
theorem optimize_ok_spec (req : OptimizeRequest) (res : OptimizeResponse)
    (h : optimize_with_sympy req = Except.ok res) :
    0 < req.beta ∧ req.pMin ≤ req.pMax ∧
    res.pOpt = pymin (pymax (pStarNum req.alpha req.beta req.c req.F) req.pMin) req.pMax ∧
    res.usedBoundary =
      decide (tol < pyabs (res.pOpt - pStarNum req.alpha req.beta req.c req.F)) ∧
    res.qOpt = pymax 0 ((qQuad req.alpha req.beta).eval res.pOpt) ∧
    res.revenue = res.pOpt * res.qOpt ∧
    res.profitOpt = res.revenue - (req.F + req.c * res.qOpt) ∧
    res.margin =
      (if 0 < res.revenue then (res.revenue - req.c * res.qOpt) / res.revenue else 0) ∧
    res.elasticity =
      (if 0 < res.qOpt then (-req.beta * res.pOpt) / (req.alpha - req.beta * res.pOpt)
       else 0) := by
  rw [optimize_with_sympy] at h
  by_cases h1 : req.beta ≤ 0
  · rw [if_pos h1] at h
    exact absurd h (by simp)
  rw [if_neg h1] at h
  by_cases h2 : req.pMax < req.pMin
  · rw [if_pos h2] at h
    exact absurd h (by simp)
  rw [if_neg h2] at h
  simp only [Except.ok.injEq] at h
  subst h
  exact ⟨not_le.mp h1, not_lt.mp h2, rfl, rfl, rfl, rfl, rfl, rfl, rfl⟩

/-- C1: for `alpha=1000, beta=2, c=50, F=2000, pMin=0, pMax=1000`,
`optimize_with_sympy` succeeds with `pOpt=275`, `qOpt=450`,
`revenue=123750`, `profitOpt=99250` and `usedBoundary=false` (and, for
completeness, `margin=9/11`, `elasticity=-11/9`). -/
theorem optimize_concrete_scenario :
    optimize_with_sympy ⟨1000, 2, 50, 2000, 0, 1000⟩ =
      Except.ok ⟨275, 450, 99250, 123750, 9 / 11, -11 / 9, false⟩ := by
  norm_num [optimize_with_sympy, pStarNum, dpiQuad, piQuad, PriceQuad.derivP, qQuad,
    PriceQuad.eval, pymin, pymax, pyabs, tol]

/-- C2: for every valid input (`beta > 0`), the unconstrained optimum
obtained from the symbolic pipeline (differentiate the profit, solve the
linear equation) equals the closed form `(alpha + beta*c)/(2*beta)`, and
it does not depend on the fixed cost `F`. -/
theorem pstar_closed_form (alpha beta c F F' : ℚ) (hb : 0 < beta) :
    pStarNum alpha beta c F = (alpha + beta * c) / (2 * beta) ∧
    pStarNum alpha beta c F = pStarNum alpha beta c F' := by
  constructor
  · show -(alpha + c * beta) / (2 * -beta) = (alpha + beta * c) / (2 * beta)
    have hbne : beta ≠ 0 := hb.ne'
    field_simp
    ring
  · rfl

/-- Witness for C2 at `alpha=1000, beta=2, c=50` and two fixed costs. -/
theorem pstar_closed_form_witness :
    pStarNum 1000 2 50 2000 = (1000 + 2 * 50) / (2 * 2) ∧
    pStarNum 1000 2 50 2000 = pStarNum 1000 2 50 7 :=
  pstar_closed_form 1000 2 50 2000 7 (by norm_num)

/-- C3: every successful `optimize_with_sympy` call returns a price in
the feasible interval: `pMin <= pOpt <= pMax`. -/
theorem optimize_clamp_invariant (req : OptimizeRequest) (res : OptimizeResponse)
    (h : optimize_with_sympy req = Except.ok res) :
    req.pMin ≤ res.pOpt ∧ res.pOpt ≤ req.pMax := by
  obtain ⟨-, h2, hp, -⟩ := optimize_ok_spec req res h
  rw [hp, pymin_eq_min, pymax_eq_max]
  exact ⟨le_min (le_max_right _ _) h2, min_le_right _ _⟩

/-- Witness for C3 at the concrete scenario of C1. -/
theorem optimize_clamp_invariant_witness :
    (0 : ℚ) ≤ 275 ∧ (275 : ℚ) ≤ 1000 :=
  optimize_clamp_invariant ⟨1000, 2, 50, 2000, 0, 1000⟩
    ⟨275, 450, 99250, 123750, 9 / 11, -11 / 9, false⟩
    (by norm_num [optimize_with_sympy, pStarNum, dpiQuad, piQuad, PriceQuad.derivP, qQuad,
      PriceQuad.eval, pymin, pymax, pyabs, tol])

/-- C4: every successful `optimize_with_sympy` call sets `usedBoundary`
exactly when the clamped price differs from the unconstrained analytic
optimum by more than the `1e-12` tolerance. -/
theorem used_boundary_iff (req : OptimizeRequest) (res : OptimizeResponse)
    (h : optimize_with_sympy req = Except.ok res) :
    res.usedBoundary = true ↔
      tol < |min (max (pStarNum req.alpha req.beta req.c req.F) req.pMin) req.pMax -
              pStarNum req.alpha req.beta req.c req.F| := by
  obtain ⟨-, -, hp, hu, -⟩ := optimize_ok_spec req res h
  rw [hu, hp, decide_eq_true_eq, pyabs_eq_abs, pymin_eq_min, pymax_eq_max]

/-- Witness for C4 at the concrete scenario of C1 (interior optimum). -/
theorem used_boundary_iff_witness :
    false = true ↔
      tol < |min (max (pStarNum 1000 2 50 2000) 0) 1000 - pStarNum 1000 2 50 2000| :=
  used_boundary_iff ⟨1000, 2, 50, 2000, 0, 1000⟩
    ⟨275, 450, 99250, 123750, 9 / 11, -11 / 9, false⟩
    (by norm_num [optimize_with_sympy, pStarNum, dpiQuad, piQuad, PriceQuad.derivP, qQuad,
      PriceQuad.eval, pymin, pymax, pyabs, tol])

/-- C5: every successful `optimize_with_sympy` call returns a
non-negative quantity, and when the unclamped linear demand at `pOpt` is
negative the returned quantity is exactly zero. -/
theorem qopt_nonneg (req : OptimizeRequest) (res : OptimizeResponse)
    (h : optimize_with_sympy req = Except.ok res) :
    0 ≤ res.qOpt ∧ (req.alpha - req.beta * res.pOpt < 0 → res.qOpt = 0) := by
  obtain ⟨-, -, -, -, hq, -⟩ := optimize_ok_spec req res h
  rw [hq, pymax_eq_max, qQuad_eval]
  exact ⟨le_max_left 0 _, fun hneg => max_eq_left hneg.le⟩

/-- Witness for C5 at an input whose unclamped demand at `pOpt` is
negative (`alpha=10, beta=2, pOpt=55/2` gives demand `-45`). -/
theorem qopt_nonneg_witness :
    (0 : ℚ) ≤ 0 ∧ ((10 : ℚ) - 2 * (55 / 2) < 0 → (0 : ℚ) = 0) :=
  qopt_nonneg ⟨10, 2, 50, 0, 20, 30⟩ ⟨55 / 2, 0, 0, 0, 0, 0, false⟩
    (by norm_num [optimize_with_sympy, pStarNum, dpiQuad, piQuad, PriceQuad.derivP, qQuad,
      PriceQuad.eval, pymin, pymax, pyabs, tol])

/-- C6: in every successful `optimize_with_sympy` call, when `qOpt > 0`
the elasticity denominator `alpha - beta*pOpt` is strictly positive (so
the division is never by zero) and the elasticity equals
`(-beta*pOpt)/(alpha - beta*pOpt)`; when `qOpt = 0` the elasticity is 0. -/
theorem elasticity_guarded (req : OptimizeRequest) (res : OptimizeResponse)
    (h : optimize_with_sympy req = Except.ok res) :
    (0 < res.qOpt →
      0 < req.alpha - req.beta * res.pOpt ∧
      res.elasticity = (-req.beta * res.pOpt) / (req.alpha - req.beta * res.pOpt)) ∧
    (res.qOpt = 0 → res.elasticity = 0) := by
  obtain ⟨-, -, -, -, hq, -, -, -, he⟩ := optimize_ok_spec req res h
  constructor
  · intro hpos
    have hd : 0 < req.alpha - req.beta * res.pOpt := by
      have hx := hpos
      rw [hq, pymax_eq_max, qQuad_eval] at hx
      exact (lt_max_iff.mp hx).resolve_left (lt_irrefl 0)
    exact ⟨hd, by rw [he, if_pos hpos]⟩
  · intro hz
    rw [he, if_neg (by rw [hz]; exact lt_irrefl 0)]

/-- Witness for C6 at the concrete scenario of C1 (`qOpt = 450 > 0`). -/
theorem elasticity_guarded_witness :
    ((0 : ℚ) < 450 →
      (0 : ℚ) < 1000 - 2 * 275 ∧ (-11 / 9 : ℚ) = (-2 * 275) / (1000 - 2 * 275)) ∧
    ((450 : ℚ) = 0 → (-11 / 9 : ℚ) = 0) :=
  elasticity_guarded ⟨1000, 2, 50, 2000, 0, 1000⟩
    ⟨275, 450, 99250, 123750, 9 / 11, -11 / 9, false⟩
    (by norm_num [optimize_with_sympy, pStarNum, dpiQuad, piQuad, PriceQuad.derivP, qQuad,
      PriceQuad.eval, pymin, pymax, pyabs, tol])

/-- C10: in every successful `optimize_with_sympy` call, if the
`usedBoundary` flag is set then the returned price is exactly one of the
two bounds. -/
theorem boundary_flag_at_bound (req : OptimizeRequest) (res : OptimizeResponse)
    (h : optimize_with_sympy req = Except.ok res)
    (hub : res.usedBoundary = true) :
    res.pOpt = req.pMin ∨ res.pOpt = req.pMax := by
  obtain ⟨-, -, hp, hu, -⟩ := optimize_ok_spec req res h
  rw [hu, decide_eq_true_eq, pyabs_eq_abs] at hub
  have hne : res.pOpt ≠ pStarNum req.alpha req.beta req.c req.F := by
    intro hEq
    rw [hEq, sub_self, abs_zero] at hub
    exact absurd hub (by norm_num [tol])
  rw [hp] at hne ⊢
  rw [pymin_eq_min, pymax_eq_max] at hne ⊢
  rcases le_total (pStarNum req.alpha req.beta req.c req.F) req.pMin with hle | hle
  · rw [max_eq_right hle]
    rcases le_total req.pMin req.pMax with h2 | h2
    · exact Or.inl (min_eq_left h2)
    · exact Or.inr (min_eq_right h2)
  · rw [max_eq_left hle] at hne ⊢
    rcases le_total (pStarNum req.alpha req.beta req.c req.F) req.pMax with h2 | h2
    · exact absurd (min_eq_left h2) hne
    · exact Or.inr (min_eq_right h2)

/-- Witness for C10 at a scenario whose unconstrained optimum `275`
exceeds `pMax = 100`, so the returned price sits on the upper bound. -/
theorem boundary_flag_at_bound_witness :
    (100 : ℚ) = 0 ∨ (100 : ℚ) = 100 :=
  boundary_flag_at_bound ⟨1000, 2, 50, 2000, 0, 100⟩
    ⟨100, 800, 38000, 80000, 1 / 2, -1 / 4, true⟩
    (by norm_num [optimize_with_sympy, pStarNum, dpiQuad, piQuad, PriceQuad.derivP, qQuad,
      PriceQuad.eval, pymin, pymax, pyabs, tol])
    (by norm_num)

/-- Sum of quantities of points lying on the line `q = A - B*p`. -/
theorem sumQ_line (A B : ℚ) (l : List FitPoint)
    (h : ∀ pt ∈ l, pt.quantity = A - B * pt.price) :
    sumQ l = A * l.length - B * sumP l := by
  induction l with
  | nil => simp [sumQ, sumP]
  | cons pt l ih =>
    have hpt := h pt (List.mem_cons_self pt l)
    have hl := fun q hq => h q (List.mem_cons_of_mem pt hq)
    simp only [sumQ, sumP, List.map_cons, List.sum_cons, List.length_cons] at ih ⊢
    rw [hpt, ih hl]
    push_cast
    ring

/-- Sum of price-quantity products of points on the line `q = A - B*p`. -/
theorem sumPQ_line (A B : ℚ) (l : List FitPoint)
    (h : ∀ pt ∈ l, pt.quantity = A - B * pt.price) :
    sumPQ l = A * sumP l - B * sumPP l := by
  induction l with
  | nil => simp [sumPQ, sumP, sumPP]
  | cons pt l ih =>
    have hpt := h pt (List.mem_cons_self pt l)
    have hl := fun q hq => h q (List.mem_cons_of_mem pt hq)
    simp only [sumPQ, sumP, sumPP, List.map_cons, List.sum_cons] at ih ⊢
    rw [hpt, ih hl]
    ring

/-- Expansion of the sum of squared deviations of the prices from an
arbitrary center `m`. -/
theorem sum_sq_dev (l : List FitPoint) (m : ℚ) :
    (l.map (fun pt => (pt.price - m) ^ 2)).sum =
      sumPP l - 2 * m * sumP l + l.length * m ^ 2 := by
  induction l with
  | nil => simp [sumPP, sumP]
  | cons pt l ih =>
    simp only [sumPP, sumP, List.map_cons, List.sum_cons, List.length_cons] at ih ⊢
    rw [ih]
    push_cast
    ring

/-- A common factor pulls out of a sum of squares. -/
theorem sum_sq_scaled (l : List FitPoint) (b m : ℚ) :
    (l.map (fun pt => (b * (m - pt.price)) ^ 2)).sum =
      b ^ 2 * (l.map (fun pt => (pt.price - m) ^ 2)).sum := by
  induction l with
  | nil => simp
  | cons pt l ih =>
    simp only [List.map_cons, List.sum_cons] at ih ⊢
    rw [ih]
    ring

/-- `sxx` is the sum of squared deviations of the prices from their mean;
in particular it is non-negative. -/
theorem sxx_as_sum_sq (l : List FitPoint) (hn : l.length ≠ 0) :
    sxx l = (l.map (fun pt => (pt.price - meanP l) ^ 2)).sum := by
  rw [sum_sq_dev l (meanP l), sxx, meanP]
  have hnq : (l.length : ℚ) ≠ 0 := Nat.cast_ne_zero.mpr hn
  field_simp
  ring

/-- `sxx` is non-negative for non-empty data. -/
theorem sxx_nonneg (l : List FitPoint) (hn : l.length ≠ 0) : 0 ≤ sxx l := by
  rw [sxx_as_sum_sq l hn]
  apply List.sum_nonneg
  intro x hx
  obtain ⟨pt, -, rfl⟩ := List.mem_map.mp hx
  positivity

/-- Mean quantity of points on the line `q = A - B*p`. -/
theorem meanQ_line (A B : ℚ) (l : List FitPoint)
    (h : ∀ pt ∈ l, pt.quantity = A - B * pt.price) (hn : l.length ≠ 0) :
    meanQ l = A - B * meanP l := by
  have hnq : (l.length : ℚ) ≠ 0 := Nat.cast_ne_zero.mpr hn
  rw [meanQ, meanP, sumQ_line A B l h]
  field_simp

/-- For points on the line `q = A - B*p`, `sxy = -B * sxx`. -/
theorem sxy_line (A B : ℚ) (l : List FitPoint)
    (h : ∀ pt ∈ l, pt.quantity = A - B * pt.price) (hn : l.length ≠ 0) :
    sxy l = -B * sxx l := by
  have hnq : (l.length : ℚ) ≠ 0 := Nat.cast_ne_zero.mpr hn
  rw [sxy, sxx, sumPQ_line A B l h, meanQ_line A B l h hn, meanP]
  field_simp
  ring

/-- For points on the line `q = A - B*p` with non-degenerate price
variance, the OLS slope recovers `-B`. -/
theorem slope_line (A B : ℚ) (l : List FitPoint)
    (h : ∀ pt ∈ l, pt.quantity = A - B * pt.price) (hn : l.length ≠ 0)
    (hsxx : sxx l ≠ 0) :
    slope_fit l = -B := by
  rw [slope_fit, sxy_line A B l h hn, mul_div_assoc, div_self hsxx, mul_one]

/-- For points on the line `q = A - B*p` with non-degenerate price
variance, the OLS intercept recovers `A`. -/
theorem intercept_line (A B : ℚ) (l : List FitPoint)
    (h : ∀ pt ∈ l, pt.quantity = A - B * pt.price) (hn : l.length ≠ 0)
    (hsxx : sxx l ≠ 0) :
    intercept l = A := by
  rw [intercept, slope_line A B l h hn hsxx, meanQ_line A B l h hn]
  ring

/-- For points on the line `q = A - B*p` the fitted residuals vanish. -/
theorem ss_res_line (A B : ℚ) (l : List FitPoint)
    (h : ∀ pt ∈ l, pt.quantity = A - B * pt.price) (hn : l.length ≠ 0)
    (hsxx : sxx l ≠ 0) :
    ss_res l = 0 := by
  rw [ss_res]
  apply List.sum_eq_zero
  intro x hx
  obtain ⟨pt, hpt, rfl⟩ := List.mem_map.mp hx
  rw [h pt hpt, intercept_line A B l h hn hsxx, slope_line A B l h hn hsxx]
  ring

/-- For points on the line `q = A - B*p`, `ss_tot = B^2 * sxx`. -/
theorem ss_tot_line (A B : ℚ) (l : List FitPoint)
    (h : ∀ pt ∈ l, pt.quantity = A - B * pt.price) (hn : l.length ≠ 0) :
    ss_tot l = B ^ 2 * sxx l := by
  have h1 : l.map (fun pt => (pt.quantity - meanQ l) ^ 2) =
      l.map (fun pt => (B * (meanP l - pt.price)) ^ 2) := by
    apply List.map_congr_left
    intro pt hpt
    rw [h pt hpt, meanQ_line A B l h hn]
    ring
  rw [ss_tot, h1, sum_sq_scaled, ← sxx_as_sum_sq l hn]

/-- `fit_linear` on exact line data `q = A - B*p` (with `B > 0`, at least
two points, and price spread clearing the `1e-12` guard) succeeds and
recovers `alpha = A`, `beta = B`, `slope = -B`, `intercept = A` and a
perfect `r2 = 1`. -/
theorem fit_linear_line_ok (A B : ℚ) (l : List FitPoint) (hB : 0 < B)
    (hline : ∀ pt ∈ l, pt.quantity = A - B * pt.price)
    (hn : 2 ≤ l.length) (hspread : tol ≤ |sxx l|) :
    fit_linear l = Except.ok ⟨A, B, -B, A, 1⟩ := by
  have hn0 : l.length ≠ 0 := by omega
  have htolpos : (0 : ℚ) < tol := by norm_num [tol]
  have hsxx0 : sxx l ≠ 0 := by
    intro h0
    rw [h0, abs_zero] at hspread
    exact absurd hspread (not_le.mpr htolpos)
  have hsl := slope_line A B l hline hn0 hsxx0
  have hint := intercept_line A B l hline hn0 hsxx0
  have hsxxpos : 0 < sxx l := lt_of_le_of_ne (sxx_nonneg l hn0) (Ne.symm hsxx0)
  have hr2 : r2 l = 1 := by
    rw [r2, if_pos (by rw [ss_tot_line A B l hline hn0]; exact mul_pos (pow_pos hB 2) hsxxpos),
      ss_res_line A B l hline hn0 hsxx0]
    simp
  rw [fit_linear, if_neg (not_lt.mpr hn),
    if_neg (by rw [pyabs_eq_abs]; exact not_lt.mpr hspread),
    if_neg (by rw [hsl, neg_neg]; exact not_le.mpr hB)]
  rw [hsl, hint, hr2, neg_neg]

/-- Inversion of a successful `fit_linear` call: success implies the
three guards passed and each response field equals the expression the
source computes for it. -/
theorem fit_ok_spec (l : List FitPoint) (fr : FitResponse)
    (h : fit_linear l = Except.ok fr) :
    2 ≤ l.length ∧ tol ≤ |sxx l| ∧ 0 < -slope_fit l ∧
    fr = ⟨intercept l, -slope_fit l, slope_fit l, intercept l, r2 l⟩ := by
  rw [fit_linear] at h
  by_cases h1 : l.length < 2
  · rw [if_pos h1] at h
    exact absurd h (by simp)
  rw [if_neg h1] at h
  by_cases h2 : pyabs (sxx l) < tol
  · rw [if_pos h2] at h
    exact absurd h (by simp)
  rw [if_neg h2] at h
  by_cases h3 : -slope_fit l ≤ 0
  · rw [if_pos h3] at h
    exact absurd h (by simp)
  rw [if_neg h3] at h
  simp only [Except.ok.injEq] at h
  rw [← pyabs_eq_abs]
  exact ⟨not_lt.mp h1, not_lt.mp h2, not_le.mp h3, h.symm⟩

/-- C7 counterexample: two observations with distinct prices lying
exactly on `q = 10 - 2*p`, on which `fit_linear` nonetheless fails with
`DegeneratePriceVariance`, because the price spread gives
`Sxx = 5e-13 < 1e-12`.  This refutes the claim that fit succeeds on
every such data set. -/
theorem fit_line_distinct_prices_rejected :
    (0 : ℚ) ≠ 1 / 1000000 ∧
    (10 : ℚ) = 10 - 2 * 0 ∧
    (10 - 2 / 1000000 : ℚ) = 10 - 2 * (1 / 1000000) ∧
    fit_linear [⟨0, 10⟩, ⟨1 / 1000000, 10 - 2 / 1000000⟩] =
      Except.error ServiceError.degeneratePriceVariance := by
  refine ⟨by norm_num, by norm_num, by norm_num, ?_⟩
  norm_num [fit_linear, sxx, sxy, sumP, sumQ, sumPP, sumPQ, meanP, meanQ, slope_fit,
    intercept, ss_tot, ss_res, r2, tol, pyabs]

/-- C7 (amended): fitting two or more observations lying exactly on
`q = 10 - 2*p` whose price spread satisfies `Sxx >= 1e-12` (the
degenerate-variance guard) succeeds with `alpha = 10`, `beta = 2` and
`r2 = 1` exactly. -/
theorem fit_exact_on_line (l : List FitPoint)
    (hline : ∀ pt ∈ l, pt.quantity = 10 - 2 * pt.price)
    (hn : 2 ≤ l.length) (hspread : tol ≤ |sxx l|) :
    fit_linear l = Except.ok ⟨10, 2, -2, 10, 1⟩ :=
  fit_linear_line_ok 10 2 l (by norm_num) hline hn hspread

/-- Witness for C7 (amended) on the points `(1,8)` and `(2,6)`. -/
theorem fit_exact_on_line_witness :
    fit_linear [⟨1, 8⟩, ⟨2, 6⟩] = Except.ok ⟨10, 2, -2, 10, 1⟩ :=
  fit_exact_on_line [⟨1, 8⟩, ⟨2, 6⟩]
    (by
      intro pt hpt
      simp only [List.mem_cons, List.not_mem_nil, or_false] at hpt
      rcases hpt with rfl | rfl <;> norm_num)
    (by norm_num)
    (by
      have h12 : sxx [⟨1, 8⟩, ⟨2, 6⟩] = 1 / 2 := by
        norm_num [sxx, sumPP, sumP, meanP]
      rw [h12, abs_of_pos]
      · norm_num [tol]
      · norm_num)

/-- C9: on exact line data `q = A - B*p` (`A >= 0`, `B > 0`, at least two
observations), whenever `fit_linear` returns a result, feeding its
`alpha` and `beta` into `optimize_with_sympy` (with the same `c`, `F`,
`pMin`, `pMax`) yields exactly the same result as calling it directly
with `A` and `B`. -/
theorem fit_optimize_round_trip (A B c F pMin pMax : ℚ) (l : List FitPoint)
    (fr : FitResponse) (hA : 0 ≤ A) (hB : 0 < B)
    (hline : ∀ pt ∈ l, pt.quantity = A - B * pt.price)
    (hn : 2 ≤ l.length)
    (hfit : fit_linear l = Except.ok fr) :
    optimize_with_sympy ⟨fr.alpha, fr.beta, c, F, pMin, pMax⟩ =
      optimize_with_sympy ⟨A, B, c, F, pMin, pMax⟩ := by
  obtain ⟨-, hspread, -, hfr⟩ := fit_ok_spec l fr hfit
  have hn0 : l.length ≠ 0 := by omega
  have htolpos : (0 : ℚ) < tol := by norm_num [tol]
  have hsxx0 : sxx l ≠ 0 := by
    intro h0
    rw [h0, abs_zero] at hspread
    exact absurd hspread (not_le.mpr htolpos)
  have ha : fr.alpha = A := by
    rw [hfr]
    exact intercept_line A B l hline hn0 hsxx0
  have hb : fr.beta = B := by
    rw [hfr]
    show -slope_fit l = B
    rw [slope_line A B l hline hn0 hsxx0, neg_neg]
  rw [ha, hb]

/-- Witness for C9 on the points `(1,8)`, `(2,6)` of `q = 10 - 2*p`. -/
theorem fit_optimize_round_trip_witness :
    optimize_with_sympy ⟨(⟨10, 2, -2, 10, 1⟩ : FitResponse).alpha,
        (⟨10, 2, -2, 10, 1⟩ : FitResponse).beta, 50, 2000, 0, 1000⟩ =
      optimize_with_sympy ⟨10, 2, 50, 2000, 0, 1000⟩ :=
  fit_optimize_round_trip 10 2 50 2000 0 1000 [⟨1, 8⟩, ⟨2, 6⟩] ⟨10, 2, -2, 10, 1⟩
    (by norm_num) (by norm_num)
    (by
      intro pt hpt
      simp only [List.mem_cons, List.not_mem_nil, or_false] at hpt
      rcases hpt with rfl | rfl <;> norm_num)
    (by norm_num)
    (by norm_num [fit_linear, sxx, sxy, sumP, sumQ, sumPP, sumPQ, meanP, meanQ, slope_fit,
      intercept, ss_tot, ss_res, r2, tol, pyabs])

/-- C8: the error taxonomy of the service.  Each validation violation is
rejected with its specific error kind (checked in the source's order),
no result is produced in those cases, and on all remaining inputs the
operation succeeds with a result and no error. -/
theorem error_taxonomy (req : OptimizeRequest) (l : List FitPoint) :
    (req.beta ≤ 0 → optimize_with_sympy req = Except.error ServiceError.invalidDemandSlope) ∧
    (0 < req.beta → req.pMax < req.pMin →
      optimize_with_sympy req = Except.error ServiceError.invalidPriceBounds) ∧
    (0 < req.beta → req.pMin ≤ req.pMax →
      ∃ res, optimize_with_sympy req = Except.ok res) ∧
    (l.length < 2 → fit_linear l = Except.error ServiceError.insufficientData) ∧
    (2 ≤ l.length → |sxx l| < tol →
      fit_linear l = Except.error ServiceError.degeneratePriceVariance) ∧
    (2 ≤ l.length → tol ≤ |sxx l| → -slope_fit l ≤ 0 →
      fit_linear l = Except.error ServiceError.nonDecreasingFit) ∧
    (2 ≤ l.length → tol ≤ |sxx l| → 0 < -slope_fit l →
      ∃ fr, fit_linear l = Except.ok fr) := by
  refine ⟨?_, ?_, ?_, ?_, ?_, ?_, ?_⟩
  · intro hb
    rw [optimize_with_sympy, if_pos hb]
  · intro hb hbounds
    rw [optimize_with_sympy, if_neg (not_le.mpr hb), if_pos hbounds]
  · intro hb hbounds
    rw [optimize_with_sympy, if_neg (not_le.mpr hb), if_neg (not_lt.mpr hbounds)]
    exact ⟨_, rfl⟩
  · intro hlen
    rw [fit_linear, if_pos hlen]
  · intro hlen hdeg
    rw [fit_linear, if_neg (not_lt.mpr hlen), if_pos (by rw [pyabs_eq_abs]; exact hdeg)]
  · intro hlen hdeg hslope
    rw [fit_linear, if_neg (not_lt.mpr hlen),
      if_neg (by rw [pyabs_eq_abs]; exact not_lt.mpr hdeg), if_pos hslope]
  · intro hlen hdeg hslope
    rw [fit_linear, if_neg (not_lt.mpr hlen),
      if_neg (by rw [pyabs_eq_abs]; exact not_lt.mpr hdeg), if_neg (not_le.mpr hslope)]
    exact ⟨_, rfl⟩

/-- Witness for C8: `beta = 0` is rejected as `InvalidDemandSlope`, and
two observations with identical prices are rejected as
`DegeneratePriceVariance`. -/
theorem error_taxonomy_witness :
    optimize_with_sympy ⟨1000, 0, 50, 2000, 0, 1000⟩ =
      Except.error ServiceError.invalidDemandSlope ∧
    fit_linear [⟨100, 5⟩, ⟨100, 7⟩] = Except.error ServiceError.degeneratePriceVariance :=
  ⟨(error_taxonomy ⟨1000, 0, 50, 2000, 0, 1000⟩ []).1 (by norm_num),
   (error_taxonomy ⟨1000, 0, 50, 2000, 0, 1000⟩ [⟨100, 5⟩, ⟨100, 7⟩]).2.2.2.2.1
     (by norm_num)
     (by
       have h0 : sxx [⟨100, 5⟩, ⟨100, 7⟩] = 0 := by
         norm_num [sxx, sumPP, sumP, meanP]
       rw [h0, abs_zero]
       norm_num [tol])⟩
